import Mathlib

/-
Verification of the deco-cx/perplexity metered-proxy server.

The definitions below are a shallow embedding of the TypeScript sources:
  * server/tools/perplexity.ts — the four contract-metered tools
    (ASK_PERPLEXITY, PERPLEXITY_CHAT_COMPLETIONS, PERPLEXITY_DEEP_RESEARCH,
    GET_PERPLEXITY_DEEP_RESEARCH_RESULT); the current revision of the file
    (the one importing ./utils/perplexity.ts) is the one embedded here.
  * the utils module (estimateInputTokensFromMessages, estimateSearchQueries,
    extractTextFromContent, callPerplexity, the zod response schemas).

JavaScript numbers that the code treats as token counts are modelled as Int
(the zod schemas allow any number for usage counts; max_tokens is validated
as a positive integer).  External effects (the upstream HTTP call, the KV
job store, the ledger) are modelled by passing their responses in as values
and recording outgoing ledger calls in an event list.
-/

namespace Perplexity

/- ===== JSON values (payloads exchanged with the upstream API). Numeric
   payload fields are modelled as integers. ===== -/

inductive Json where
  | null
  | bool (b : Bool)
  | num (n : Int)
  | str (s : String)
  | arr (elems : List Json)
  | obj (fields : List (String × Json))
deriving Repr

/-- Property access `j[k]` on a JSON value: `none` models `undefined`
(non-object receiver or absent key). -/
def Json.field : Json → String → Option Json
  | .obj fs, k => (fs.find? (fun f => f.1 == k)).map (fun f => f.2)
  | _, _ => none

def Json.isStr : Json → Bool
  | .str _ => true
  | _ => false

def Json.isNum : Json → Bool
  | .num _ => true
  | _ => false

/- ===== Usage record (UsageInfoSchema in utils/perplexity.ts).
   `z.number().nullable().optional()` fields collapse null/absent to
   `none`; the consuming code applies `?? 0` to them. ===== -/

structure UsageInfo where
  prompt_tokens : Int
  completion_tokens : Int
  total_tokens : Int
  citation_tokens : Option Int
  num_search_queries : Option Int
  reasoning_tokens : Option Int
deriving Repr, DecidableEq

/-- Reads a nullable-optional numeric field: absent, null and non-numeric
values all become `none` (the code then falls back with `?? 0`). -/
def numOrNone : Option Json → Option Int
  | some (.num n) => some n
  | _ => none

/-- The member accesses `json.usage.prompt_tokens` / `.completion_tokens` /
`.total_tokens` (plus the nullable extras) performed by the tools after
`callPerplexity` returns.  `none` models the access failing to produce
numbers (possible only on a gracefully-degraded raw payload). -/
def jsonUsage (j : Json) : Option UsageInfo :=
  match j.field "usage" with
  | some u =>
    match u.field "prompt_tokens", u.field "completion_tokens", u.field "total_tokens" with
    | some (.num p), some (.num c), some (.num t) =>
      some { prompt_tokens := p, completion_tokens := c, total_tokens := t,
             citation_tokens := numOrNone (u.field "citation_tokens"),
             num_search_queries := numOrNone (u.field "num_search_queries"),
             reasoning_tokens := numOrNone (u.field "reasoning_tokens") }
    | _, _, _ => none
  | none => none

/- ===== Strict response validation: ChatCompletionsResponseJsonSchema
   from utils/perplexity.ts (zod, non-strict objects: unknown keys are
   ignored).  The `z.string().url()` refinement is abstracted to "any
   string". ===== -/

/-- `z.T.nullable().optional()` field check: absent or null passes, a
present non-null value must satisfy `check`. -/
def nullableOptionalField (j : Json) (k : String) (check : Json → Bool) : Bool :=
  match j.field k with
  | none => true
  | some .null => true
  | some v => check v

/-- `z.T.optional()` field check: absent passes, a present value must
satisfy `check` (null is rejected). -/
def optionalField (j : Json) (k : String) (check : Json → Bool) : Bool :=
  match j.field k with
  | none => true
  | some v => check v

/-- UsageInfoSchema. -/
def validUsageInfo (j : Json) : Bool :=
  (match j.field "prompt_tokens" with | some (.num _) => true | _ => false) &&
  (match j.field "completion_tokens" with | some (.num _) => true | _ => false) &&
  (match j.field "total_tokens" with | some (.num _) => true | _ => false) &&
  nullableOptionalField j "search_context_size" Json.isStr &&
  nullableOptionalField j "citation_tokens" Json.isNum &&
  nullableOptionalField j "num_search_queries" Json.isNum &&
  nullableOptionalField j "reasoning_tokens" Json.isNum

/-- ChatMessageContentChunkSchema. -/
def validContentChunk (j : Json) : Bool :=
  (match j.field "type" with
   | some (.str t) => t == "text" || t == "image_url"
   | _ => false) &&
  optionalField j "text" Json.isStr &&
  optionalField j "image_url" (fun v =>
    match v.field "url" with | some (.str _) => true | _ => false)

/-- ChatCompletionsMessageSchema. -/
def validChatMessage (j : Json) : Bool :=
  (match j.field "role" with
   | some (.str r) => r == "system" || r == "user" || r == "assistant"
   | _ => false) &&
  (match j.field "content" with
   | some (.str _) => true
   | some (.arr xs) => xs.all validContentChunk
   | _ => false)

/-- ChatCompletionsChoiceSchema. -/
def validChoice (j : Json) : Bool :=
  (match j.field "index" with | some (.num _) => true | _ => false) &&
  (match j.field "finish_reason" with
   | none => true
   | some .null => true
   | some (.str s) => s == "stop" || s == "length"
   | some _ => false) &&
  (match j.field "message" with
   | some m => validChatMessage m
   | none => false)

/-- ApiPublicSearchResultSchema. -/
def validSearchResult (j : Json) : Bool :=
  (match j.field "title" with | some (.str _) => true | _ => false) &&
  (match j.field "url" with | some (.str _) => true | _ => false) &&
  nullableOptionalField j "date" Json.isStr

/-- ChatCompletionsResponseJsonSchema: the strict chat-completion shape. -/
def validateChatCompletion (j : Json) : Bool :=
  (match j.field "id" with | some (.str _) => true | _ => false) &&
  (match j.field "model" with | some (.str _) => true | _ => false) &&
  (match j.field "created" with | some (.num _) => true | _ => false) &&
  (match j.field "usage" with | some u => validUsageInfo u | none => false) &&
  (match j.field "object" with | some (.str s) => s == "chat.completion" | _ => false) &&
  (match j.field "choices" with | some (.arr xs) => xs.all validChoice | _ => false) &&
  nullableOptionalField j "search_results" (fun v =>
    match v with | .arr xs => xs.all validSearchResult | _ => false)

/-- Whether the raw payload carries a `choices` field (the graceful
degradation test of the upstream client). -/
def hasChoicesField (j : Json) : Bool :=
  (j.field "choices").isSome

/- ===== Upstream client =====-/

inductive UpstreamError where
  | upstreamHttp (status : Int) (statusText : String) (body : String)
  | upstreamSchema
deriving Repr, DecidableEq

inductive DecodeOutcome where
  | parsed (payload : Json)
  | rawFallback (payload : Json)
deriving Repr

def DecodeOutcome.payload : DecodeOutcome → Json
  | .parsed j => j
  | .rawFallback j => j

/-- Modelled from the spec: the response validation of `callPerplexity` in
utils/perplexity.ts.  The current revision of that module is absent from
src (the tools import from it a three-argument streaming `callPerplexity`,
`createPerplexityAsyncJob` and `getPerplexityAsyncJob`; the older revision
in src lacks all of these).  Per the spec: a payload passing strict
validation is returned parsed; on validation failure a payload still
containing a `choices` field is returned raw (graceful degradation); only
a payload with no `choices` field fails with `UpstreamSchemaError`. -/
def decodeChatPayload (j : Json) : Except UpstreamError DecodeOutcome :=
  if validateChatCompletion j then .ok (.parsed j)
  else if hasChoicesField j then .ok (.rawFallback j)
  else .error .upstreamSchema

/-- One upstream HTTP exchange: status line, raw body text, and the body
parsed as JSON (used when the status is a success). -/
structure HttpOutcome where
  status : Int
  statusText : String
  bodyText : String
  json : Json

/-- `res.ok` of the fetch API: status in [200, 300). -/
def httpOk (r : HttpOutcome) : Bool :=
  200 ≤ r.status && r.status < 300

/-- `callPerplexity`: on a non-2xx response the call throws, carrying the
status code, status text and raw body text (`Perplexity API error:
${res.status} ${res.statusText} - ${text}`); on a 2xx response the JSON
body is validated as above. -/
def callPerplexityResult (r : HttpOutcome) : Except UpstreamError DecodeOutcome :=
  if httpOk r then decodeChatPayload r.json
  else .error (.upstreamHttp r.status r.statusText r.bodyText)

/- ===== Chat messages (request side) and the usage estimators ===== -/

inductive ChunkKind where
  | text
  | image_url
deriving DecidableEq, Repr

/-- One request-side content chunk; `kind` embeds the source field
`type`, `image_url` holds the url of the nested image object. -/
structure ContentChunk where
  kind : ChunkKind
  text : Option String
  image_url : Option String
deriving DecidableEq, Repr

inductive MessageContent where
  | str (s : String)
  | parts (chunks : List ContentChunk)
deriving DecidableEq, Repr

inductive Role where
  | system
  | user
  | assistant
deriving DecidableEq, Repr

structure ChatMessage where
  role : Role
  content : MessageContent
deriving DecidableEq, Repr

/-- Characters contributed by one content chunk inside
`estimateInputTokensFromMessages`: `if (chunk.type === "text" && chunk.text)
chars += chunk.text.length` (an absent `text`, and the falsy empty string,
contribute 0 characters, as does an `image_url` chunk). -/
def chunkTextChars (c : ContentChunk) : Nat :=
  if c.kind = ChunkKind.text then
    match c.text with
    | some t => t.length
    | none => 0
  else 0

/-- Characters contributed by one message: a whole string content counts
its full length, a chunk list sums its text chunks. -/
def messageChars (m : ChatMessage) : Nat :=
  match m.content with
  | .str s => s.length
  | .parts cs => cs.foldl (fun acc c => acc + chunkTextChars c) 0

/-- `estimateInputTokensFromMessages` from utils/perplexity.ts:
accumulate characters over all messages, then `Math.ceil(chars / 4)`
(on naturals, `(chars + 3) / 4`). -/
def estimateInputTokensFromMessages (messages : List ChatMessage) : Nat :=
  (messages.foldl (fun acc m => acc + messageChars m) 0 + 3) / 4

/-- `estimateSearchQueries` from utils/perplexity.ts.  The effort argument
is modelled as an arbitrary optional string so that the fallback branch is
exercised by unrecognized values as well. -/
def estimateSearchQueries (effort : Option String) : Int :=
  if effort = some "low" then 10
  else if effort = some "high" then 60
  else 30

/- ===== Ledger and clauses ===== -/

structure Clause where
  clauseId : String
  amount : Int
deriving DecidableEq, Repr

inductive LedgerCall where
  | authorize (clauses : List Clause)
  | settle (transactionId : String) (clauses : List Clause)
deriving DecidableEq, Repr

/-- `list.find(c => c.clauseId === cid)?.amount ?? 0` — the cap lookup used
by the deep-research settlement. -/
def findClauseAmount (clauses : List Clause) (cid : String) : Int :=
  match clauses.find? (fun c => c.clauseId == cid) with
  | some c => c.amount
  | none => 0

/-- The spec's core safety invariant (§8): every settle clause stays within
the authorize clause sharing its clauseId. -/
def settleWithinAuthorized (auth settle : List Clause) : Prop :=
  ∀ s ∈ settle, ∀ a ∈ auth, s.clauseId = a.clauseId → s.amount ≤ a.amount

/- ===== ASK_PERPLEXITY ===== -/

/-- `Math.ceil(context.query.length / 4)`. -/
def askInputTokens (query : String) : Int :=
  (((query.length + 3) / 4 : Nat) : Int)

/-- The authorize clauses of ASK_PERPLEXITY (`prefix = model`). -/
def askAuthorizeClauses (model query : String) (max_tokens : Int) : List Clause :=
  [{ clauseId := model ++ ":input-token", amount := askInputTokens query },
   { clauseId := model ++ ":output-token", amount := max_tokens }]

/-- The settle clauses of ASK_PERPLEXITY.  `context.max_tokens` is
non-optional after schema validation (zod default 16000), so
`context.max_tokens ?? json.usage.completion_tokens` is the left operand. -/
def askSettleClauses (model query : String) (max_tokens : Int) (usage : UsageInfo) : List Clause :=
  [{ clauseId := model ++ ":input-token",
     amount := min (askInputTokens query) usage.prompt_tokens },
   { clauseId := model ++ ":output-token",
     amount := min usage.completion_tokens max_tokens }]

/-- `extractTextFromContent` applied to the raw JSON content of the first
choice: a string content is returned whole; an array maps text chunks to
their text (others to "") and joins, then trims. -/
def extractTextFromContent (content : Option Json) : String :=
  match content with
  | some (.str s) => s
  | some (.arr parts) =>
    (((parts.map (fun p =>
        if (match p.field "type" with | some (.str t) => t == "text" | _ => false) then
          match p.field "text" with
          | some (.str t) => t
          | _ => ""
        else "")).foldl (fun a b => a ++ b) "")).trim
  | _ => ""

/-- `json?.choices?.[0]?.message?.content`. -/
def firstChoiceContent (j : Json) : Option Json :=
  match j.field "choices" with
  | some (.arr (c :: _)) =>
    (match c.field "message" with
     | some m => m.field "content"
     | none => none)
  | _ => none

def extractAnswer (j : Json) : String :=
  extractTextFromContent (firstChoiceContent j)

inductive ToolError where
  | upstream (e : UpstreamError)
  | typeErrorUsage
deriving Repr, DecidableEq

structure AskOutput where
  answer : String
  raw : Json
deriving Repr

/-- The execute body of ASK_PERPLEXITY: authorize, call upstream, settle,
return.  The upstream HTTP exchange and the ledger-issued transaction id
are inputs; outgoing ledger calls are recorded in order.  If the upstream
call throws, the settle is never reached (the error propagates with only
the authorize performed).  `typeErrorUsage` models the member access
`json.usage.prompt_tokens` crashing on a degraded raw payload without a
numeric usage record. -/
def askExecute (model query : String) (max_tokens : Int) (transactionId : String)
    (r : HttpOutcome) : Except ToolError AskOutput × List LedgerCall :=
  let auth := askAuthorizeClauses model query max_tokens
  match callPerplexityResult r with
  | .error e => (.error (.upstream e), [.authorize auth])
  | .ok out =>
    match jsonUsage out.payload with
    | none => (.error .typeErrorUsage, [.authorize auth])
    | some usage =>
      (.ok { answer := extractAnswer out.payload, raw := out.payload },
       [.authorize auth,
        .settle transactionId (askSettleClauses model query max_tokens usage)])

/- ===== PERPLEXITY_CHAT_COMPLETIONS ===== -/

/-- The authorize clauses of PERPLEXITY_CHAT_COMPLETIONS
(`context.max_tokens ?? 0` with max_tokens non-optional after validation). -/
def chatAuthorizeClauses (model : String) (messages : List ChatMessage)
    (max_tokens : Int) : List Clause :=
  [{ clauseId := model ++ ":input-token",
     amount := (estimateInputTokensFromMessages messages : Int) },
   { clauseId := model ++ ":output-token", amount := max_tokens }]

/-- The settle clauses of PERPLEXITY_CHAT_COMPLETIONS. -/
def chatSettleClauses (model : String) (messages : List ChatMessage)
    (max_tokens : Int) (usage : UsageInfo) : List Clause :=
  [{ clauseId := model ++ ":input-token",
     amount := min (estimateInputTokensFromMessages messages : Int) usage.prompt_tokens },
   { clauseId := model ++ ":output-token",
     amount := min usage.completion_tokens max_tokens }]

structure ChatOutput where
  answer : Option String
  raw : Json
deriving Repr

/-- The execute body of PERPLEXITY_CHAT_COMPLETIONS (authorize, call,
settle, then extract the answer; `extractTextFromContent(first) ||
undefined` maps the empty string to an absent answer). -/
def chatCompletionsExecute (model : String) (messages : List ChatMessage)
    (max_tokens : Int) (transactionId : String) (r : HttpOutcome) :
    Except ToolError ChatOutput × List LedgerCall :=
  let auth := chatAuthorizeClauses model messages max_tokens
  match callPerplexityResult r with
  | .error e => (.error (.upstream e), [.authorize auth])
  | .ok out =>
    match jsonUsage out.payload with
    | none => (.error .typeErrorUsage, [.authorize auth])
    | some usage =>
      (.ok { answer := (let a := extractAnswer out.payload
                        if a = "" then none else some a),
             raw := out.payload },
       [.authorize auth,
        .settle transactionId (chatSettleClauses model messages max_tokens usage)])

/- ===== PERPLEXITY_DEEP_RESEARCH (create) ===== -/

/-- The five authorize clauses of PERPLEXITY_DEEP_RESEARCH; the model is
fixed to "sonar-deep-research" and `maxTokens = context.max_tokens ?? 0`
(non-optional after validation). -/
def deepResearchAuthorizeClauses (messages : List ChatMessage) (max_tokens : Int)
    (reasoning_effort : Option String) : List Clause :=
  let inputTokens : Int := estimateInputTokensFromMessages messages
  let searchQueries := estimateSearchQueries reasoning_effort
  [{ clauseId := "sonar-deep-research" ++ ":input-token", amount := inputTokens },
   { clauseId := "sonar-deep-research" ++ ":output-token", amount := max_tokens },
   { clauseId := "sonar-deep-research" ++ ":citation-token", amount := max max_tokens 50000 },
   { clauseId := "sonar-deep-research" ++ ":reasoning-token", amount := max max_tokens 100000 },
   { clauseId := "sonar-deep-research" ++ ":search-query", amount := searchQueries }]

/- ===== GET_PERPLEXITY_DEEP_RESEARCH_RESULT (poll) ===== -/

inductive JobStatus where
  | CREATED
  | IN_PROGRESS
  | COMPLETED
  | FAILED
deriving DecidableEq, Repr

/-- The completed-job payload carried in an AsyncJob `response`; only its
usage record is consumed by the poll tool, and the value itself is
returned to the caller unchanged. -/
structure ChatPayload where
  usage : UsageInfo
deriving Repr, DecidableEq

/-- Modelled from the spec: the AsyncJob descriptor (§3) returned by
`getPerplexityAsyncJob` — the helper and its
AsyncApiChatCompletionsResponseSchema live in the current revision of
utils/perplexity.ts, which is absent from src; fields the poll tool never
reads are omitted. -/
structure AsyncJob where
  id : String
  model : String
  status : JobStatus
  error_message : Option String
  response : Option ChatPayload
deriving Repr

/-- The JobRecord persisted in PERPLEXITY_JOBS at create time; the poll
reads `parsedJob.authorizeClauses` and `parsedJob.asyncResp.id`. -/
structure JobRecord where
  authorizeClauses : List Clause
  asyncRespId : String
deriving Repr

/-- The five zero-amount settle clauses used for FAILED jobs and for
COMPLETED jobs with no response payload. -/
def zeroSettleClauses (pfx : String) : List Clause :=
  [{ clauseId := pfx ++ ":input-token", amount := 0 },
   { clauseId := pfx ++ ":output-token", amount := 0 },
   { clauseId := pfx ++ ":citation-token", amount := 0 },
   { clauseId := pfx ++ ":reasoning-token", amount := 0 },
   { clauseId := pfx ++ ":search-query", amount := 0 }]

/-- The settle clauses of a COMPLETED poll with a response payload,
exactly as computed in the tool: `prefix` comes from the fetched job's
model; `inputAmount` is the stored authorized input cap (`?? 0` when no
clause matches); `outputAmount = usage.completion_tokens` (so the
output-token settle amount is `min` of the actual value with itself);
citation/reasoning/search each take `min` of the actual value (`?? 0`)
with the stored cap (`?? 0`). -/
def pollCompletedSettleClauses (pfx : String) (authorized : List Clause)
    (usage : UsageInfo) : List Clause :=
  let inputAmount := findClauseAmount authorized (pfx ++ ":input-token")
  let outputAmount := usage.completion_tokens
  let citation := usage.citation_tokens.getD 0
  let reasoning := usage.reasoning_tokens.getD 0
  let queries := usage.num_search_queries.getD 0
  [{ clauseId := pfx ++ ":input-token", amount := min inputAmount usage.prompt_tokens },
   { clauseId := pfx ++ ":output-token", amount := min outputAmount usage.completion_tokens },
   { clauseId := pfx ++ ":citation-token",
     amount := min citation (findClauseAmount authorized (pfx ++ ":citation-token")) },
   { clauseId := pfx ++ ":reasoning-token",
     amount := min reasoning (findClauseAmount authorized (pfx ++ ":reasoning-token")) },
   { clauseId := pfx ++ ":search-query",
     amount := min queries (findClauseAmount authorized (pfx ++ ":search-query")) }]

structure PollOutput where
  status : JobStatus
  response : Option ChatPayload
  error_message : Option String
  settled : Bool
deriving Repr, DecidableEq

/-- The failure of the poll when the Job Store holds no record for the
transaction id: `parsedJob` is null and the access `parsedJob.asyncResp`
throws before any upstream or ledger call (the spec's
UnknownTransactionError). -/
inductive PollError where
  | unknownTransaction
deriving Repr, DecidableEq

/-- The execute body of GET_PERPLEXITY_DEEP_RESEARCH_RESULT.  `stored` is
the Job Store lookup result; `asyncResp` is the job descriptor the
upstream would return for the stored job id (unused when the lookup
fails, since the invocation throws first).  Outgoing ledger calls are
recorded in order. -/
def pollExecute (transactionId : String) (stored : Option JobRecord)
    (asyncResp : AsyncJob) : Except PollError PollOutput × List LedgerCall :=
  match stored with
  | none => (.error .unknownTransaction, [])
  | some parsedJob =>
    if asyncResp.status = .CREATED ∨ asyncResp.status = .IN_PROGRESS then
      (.ok { status := asyncResp.status, response := none,
             error_message := asyncResp.error_message, settled := false }, [])
    else
      let pfx := asyncResp.model
      if asyncResp.status = .FAILED then
        (.ok { status := asyncResp.status, response := none,
               error_message := asyncResp.error_message, settled := true },
         [.settle transactionId (zeroSettleClauses pfx)])
      else
        match asyncResp.response with
        | none =>
          (.ok { status := .COMPLETED, response := none,
                 error_message := none, settled := true },
           [.settle transactionId (zeroSettleClauses pfx)])
        | some raw =>
          (.ok { status := .COMPLETED, response := some raw,
                 error_message := none, settled := true },
           [.settle transactionId
              (pollCompletedSettleClauses pfx parsedJob.authorizeClauses raw.usage)])

/- ===== Input-schema validation of max_tokens ===== -/

/-- The `max_tokens` field of BasePerplexityParamsSchema:
`z.number().int().positive().optional().default(16000)`.  The input is an
optional integer (the `.int()` refinement is reflected by the Int domain);
an absent input takes the default 16000; a present input must be positive
or validation fails (`none`). -/
def parseMaxTokensField : Option Int → Option Int
  | none => some 16000
  | some n => if 0 < n then some n else none

/- ===== Observations used by the theorems ===== -/

/-- Number of settle calls in a ledger event list. -/
def settleCount (log : List LedgerCall) : Nat :=
  log.countP (fun c => match c with | .settle _ _ => true | _ => false)

/-- The settled flag of a successful poll result (`none` on failure). -/
def resultSettled : Except PollError PollOutput → Option Bool
  | .ok out => some out.settled
  | .error _ => none

/-- Character count of one chunk as the spec words it: the text of a
text-typed chunk, 0 for an image chunk. -/
def specChunkChars (c : ContentChunk) : Nat :=
  match c.kind, c.text with
  | ChunkKind.text, some t => t.length
  | _, _ => 0

/-- Character count of one message as the spec words it: the whole string
content, or the sum over its text chunks. -/
def specMessageChars (m : ChatMessage) : Nat :=
  match m.content with
  | .str s => s.length
  | .parts cs => (cs.map specChunkChars).sum

/-- Total text characters across a message list as the spec words it. -/
def specTextChars (messages : List ChatMessage) : Nat :=
  (messages.map specMessageChars).sum

/- ===== Concrete inputs used by closed theorems and witnesses ===== -/

/-- Stored deep-research authorization for a job created from one short
user message with `max_tokens = 10` and default reasoning effort. -/
def c1Auth : List Clause :=
  deepResearchAuthorizeClauses [{ role := .user, content := .str "hi" }] 10 none

/-- Upstream usage of the completed job: 20 completion tokens, more than
the 10 that were authorized for the output-token clause. -/
def c1Usage : UsageInfo :=
  { prompt_tokens := 1, completion_tokens := 20, total_tokens := 21,
    citation_tokens := none, num_search_queries := none, reasoning_tokens := none }

def c1Settle : List Clause :=
  pollCompletedSettleClauses "sonar-deep-research" c1Auth c1Usage

def c2Rec : JobRecord := { authorizeClauses := [], asyncRespId := "job-1" }

def c2Job : AsyncJob :=
  { id := "job-1", model := "sonar-deep-research", status := .FAILED,
    error_message := some "boom", response := none }

def c4Http : HttpOutcome :=
  { status := 429, statusText := "Too Many Requests", bodyText := "rate limited",
    json := .null }

/-- A 2xx payload that fails strict validation (no id/model/created/usage
per schema: usage lacks nothing here, but id/model/created/object are
absent) while still carrying a `choices` field. -/
def c5Json : Json := .obj [("choices", .arr [])]

def c6Json : Json :=
  .obj [("choices", .arr []),
        ("usage", .obj [("prompt_tokens", .num 2), ("completion_tokens", .num 5),
                        ("total_tokens", .num 7)])]

def c6Http : HttpOutcome :=
  { status := 200, statusText := "OK", bodyText := "", json := c6Json }

def c6Usage : UsageInfo :=
  { prompt_tokens := 2, completion_tokens := 5, total_tokens := 7,
    citation_tokens := none, num_search_queries := none, reasoning_tokens := none }

def c7Message : ChatMessage :=
  { role := .user,
    content := .parts
      [{ kind := .text, text := some "hi", image_url := none },
       { kind := .image_url, text := none, image_url := some "https://example.com/i.png" }] }

def c9Usage : UsageInfo :=
  { prompt_tokens := 3, completion_tokens := 7, total_tokens := 10,
    citation_tokens := some 2, num_search_queries := some 4, reasoning_tokens := some 1 }

/- ===== Helper lemmas ===== -/

theorem strAppendLeftCancel (p : String) {a b : String} (h : p ++ a = p ++ b) : a = b := by
  apply String.ext
  have hd : (p ++ a).data = (p ++ b).data := congrArg String.data h
  rw [String.data_append, String.data_append] at hd
  exact List.append_cancel_left hd

theorem strAppendRightCancel (s : String) {a b : String} (h : a ++ s = b ++ s) : a = b := by
  apply String.ext
  have hd : (a ++ s).data = (b ++ s).data := congrArg String.data h
  rw [String.data_append, String.data_append] at hd
  exact List.append_cancel_right hd

theorem strAppendNeRight (p : String) {a b : String} (h : a ≠ b) : p ++ a ≠ p ++ b :=
  fun he => h (strAppendLeftCancel p he)

theorem strNeOfNotSuffix {m s t : String} (h : ¬ s.data <:+ t.data) : m ++ s ≠ t := by
  intro he
  exact h ⟨m.data, by rw [← String.data_append, he]⟩

theorem findClauseAmount_nil (cid : String) : findClauseAmount [] cid = 0 := rfl

theorem findClauseAmount_cons_self {c : Clause} {rest : List Clause} {cid : String}
    (h : c.clauseId = cid) : findClauseAmount (c :: rest) cid = c.amount := by
  unfold findClauseAmount
  rw [List.find?_cons_of_pos _ (by simp [h])]

theorem findClauseAmount_cons_ne {c : Clause} {rest : List Clause} {cid : String}
    (h : c.clauseId ≠ cid) :
    findClauseAmount (c :: rest) cid = findClauseAmount rest cid := by
  unfold findClauseAmount
  rw [List.find?_cons_of_neg _ (by simp [h])]

theorem foldlAddMessageChars (l : List ChatMessage) (n : Nat) :
    l.foldl (fun acc m => acc + messageChars m) n = n + (l.map messageChars).sum := by
  induction l generalizing n with
  | nil => simp
  | cons m rest ih => simp [List.foldl_cons, ih, Nat.add_assoc]

theorem foldlAddChunkChars (cs : List ContentChunk) (n : Nat) :
    cs.foldl (fun acc c => acc + chunkTextChars c) n = n + (cs.map chunkTextChars).sum := by
  induction cs generalizing n with
  | nil => simp
  | cons c rest ih => simp [List.foldl_cons, ih, Nat.add_assoc]

theorem chunkTextChars_spec (c : ContentChunk) : chunkTextChars c = specChunkChars c := by
  rcases c with ⟨k, t, u⟩
  cases k <;> cases t <;> rfl

theorem messageChars_spec (m : ChatMessage) : messageChars m = specMessageChars m := by
  rcases m with ⟨r, content⟩
  cases content with
  | str s => rfl
  | parts cs =>
    show cs.foldl (fun acc c => acc + chunkTextChars c) 0 = (cs.map specChunkChars).sum
    rw [foldlAddChunkChars, Nat.zero_add, funext chunkTextChars_spec]

theorem decodeChatPayload_ok_payload {j : Json}
    (h : validateChatCompletion j = true ∨ hasChoicesField j = true) :
    ∃ out, decodeChatPayload j = .ok out ∧ out.payload = j := by
  cases hv : validateChatCompletion j with
  | true => exact ⟨.parsed j, by simp [decodeChatPayload, hv], rfl⟩
  | false =>
    have hc : hasChoicesField j = true := by
      rcases h with h | h
      · exact absurd (hv ▸ h) (by simp)
      · exact h
    exact ⟨.rawFallback j, by simp [decodeChatPayload, hv, hc], rfl⟩

/- ===== Claims ===== -/

/-- C3: for every transaction id with no Job Store record, the poll
invocation fails (the spec's UnknownTransactionError; in the code the
null `parsedJob` is dereferenced before any other call) and the ledger
event list is empty — no authorize and no settle call is made, whatever
the upstream would have answered. -/
theorem c3_unknown_transaction_no_ledger_call (transactionId : String) (job : AsyncJob) :
    pollExecute transactionId none job = (.error .unknownTransaction, []) := rfl

/-- C7: `estimateInputTokensFromMessages` returns the ceiling of a quarter
of the total text characters (whole string contents plus the text of every
text-typed chunk; on naturals `ceil (n / 4) = (n + 3) / 4`); an image_url
chunk contributes 0 characters, and the single user message "hi"-text plus
one image chunk estimates to 1 token. -/
theorem c7_estimate_input_tokens_from_messages :
    (∀ messages : List ChatMessage,
       estimateInputTokensFromMessages messages = (specTextChars messages + 3) / 4)
    ∧ estimateInputTokensFromMessages [c7Message] = 1
    ∧ (∀ c : ContentChunk, c.kind = ChunkKind.image_url → chunkTextChars c = 0) := by
  refine ⟨?_, ?_, ?_⟩
  · intro messages
    show (messages.foldl (fun acc m => acc + messageChars m) 0 + 3) / 4 = _
    rw [foldlAddMessageChars, Nat.zero_add, funext messageChars_spec]
    rfl
  · rfl
  · intro c h
    simp [chunkTextChars, h]

/-- C7 witness: a concrete image_url chunk contributes 0 characters. -/
theorem c7_estimate_input_tokens_from_messages_witness :
    chunkTextChars { kind := .image_url, text := none,
                     image_url := some "https://example.com/i.png" } = 0 :=
  c7_estimate_input_tokens_from_messages.2.2
    { kind := .image_url, text := none, image_url := some "https://example.com/i.png" } rfl

/-- C8: `estimateSearchQueries` is a pure total function of the effort
argument: 10 for "low", 60 for "high", and 30 for "medium", for an absent
value, and for every other input. -/
theorem c8_estimate_search_queries_total :
    estimateSearchQueries (some "low") = 10
    ∧ estimateSearchQueries (some "high") = 60
    ∧ estimateSearchQueries (some "medium") = 30
    ∧ estimateSearchQueries none = 30
    ∧ ∀ e : Option String, e ≠ some "low" → e ≠ some "high" →
        estimateSearchQueries e = 30 := by
  refine ⟨by decide, by decide, by decide, rfl, ?_⟩
  intro e h1 h2
  unfold estimateSearchQueries
  rw [if_neg h1, if_neg h2]

/-- C8 witness: an unrecognized effort value falls back to 30. -/
theorem c8_estimate_search_queries_total_witness :
    estimateSearchQueries (some "extreme") = 30 :=
  c8_estimate_search_queries_total.2.2.2.2 (some "extreme") (by decide) (by decide)

/-- C5: a 2xx payload that fails strict chat-completion validation but
carries a `choices` field is returned raw (graceful degradation); a 2xx
payload with no `choices` field fails with UpstreamSchemaError; and for
any 2xx status the client behaves exactly as this decode. -/
theorem c5_schema_degradation (j : Json)
    (hinvalid : validateChatCompletion j = false) :
    (hasChoicesField j = true → decodeChatPayload j = .ok (.rawFallback j))
    ∧ (hasChoicesField j = false → decodeChatPayload j = .error .upstreamSchema)
    ∧ (∀ (st : Int) (stx bt : String), 200 ≤ st → st < 300 →
         callPerplexityResult { status := st, statusText := stx, bodyText := bt, json := j } =
           decodeChatPayload j) := by
  refine ⟨?_, ?_, ?_⟩
  · intro hc
    simp [decodeChatPayload, hinvalid, hc]
  · intro hc
    simp [decodeChatPayload, hinvalid, hc]
  · intro st stx bt h1 h2
    have hb : httpOk { status := st, statusText := stx, bodyText := bt, json := j } = true := by
      unfold httpOk
      rw [Bool.and_eq_true]
      exact ⟨decide_eq_true h1, decide_eq_true h2⟩
    simp [callPerplexityResult, hb]

/-- C5 witness: the payload `{choices: []}` fails strict validation but is
returned raw instead of failing. -/
theorem c5_schema_degradation_witness :
    decodeChatPayload c5Json = .ok (.rawFallback c5Json) :=
  (c5_schema_degradation c5Json rfl).1 rfl

/-- C4: on a non-2xx upstream response both synchronous chat-completion
tools fail with the HTTP error carrying status, status text and raw body,
and their ledger event list holds only the authorize call — no settle call
is made, leaving the authorized transaction unsettled. -/
theorem c4_upstream_http_error_no_settle (model query : String)
    (messages : List ChatMessage) (max_tokens : Int) (transactionId : String)
    (r : HttpOutcome) (h : httpOk r = false) :
    askExecute model query max_tokens transactionId r =
      (.error (.upstream (.upstreamHttp r.status r.statusText r.bodyText)),
       [.authorize (askAuthorizeClauses model query max_tokens)])
    ∧ chatCompletionsExecute model messages max_tokens transactionId r =
      (.error (.upstream (.upstreamHttp r.status r.statusText r.bodyText)),
       [.authorize (chatAuthorizeClauses model messages max_tokens)])
    ∧ (∀ (t : String) (cl : List Clause),
         LedgerCall.settle t cl ∉ (askExecute model query max_tokens transactionId r).2)
    ∧ (∀ (t : String) (cl : List Clause),
         LedgerCall.settle t cl ∉ (chatCompletionsExecute model messages max_tokens transactionId r).2) := by
  have hcall : callPerplexityResult r =
      .error (.upstreamHttp r.status r.statusText r.bodyText) := by
    simp [callPerplexityResult, h]
  refine ⟨?_, ?_, ?_, ?_⟩
  · simp [askExecute, hcall]
  · simp [chatCompletionsExecute, hcall]
  · intro t cl
    simp [askExecute, hcall]
  · intro t cl
    simp [chatCompletionsExecute, hcall]

/-- C4 witness: an HTTP 429 response makes ASK_PERPLEXITY fail with the
structured upstream error and authorize-only ledger activity. -/
theorem c4_upstream_http_error_no_settle_witness :
    askExecute "sonar" "q" 16000 "tx-2" c4Http =
      (.error (.upstream (.upstreamHttp 429 "Too Many Requests" "rate limited")),
       [.authorize (askAuthorizeClauses "sonar" "q" 16000)]) :=
  (c4_upstream_http_error_no_settle "sonar" "q" [] 16000 "tx-2" c4Http (by decide)).1

/-- C10: a `max_tokens` input that passes schema validation is defined and
positive (16000 when absent, the caller's value otherwise), the nullish
fallbacks `?? 0` and `?? completion_tokens` can never fire on it, and the
output-token authorization amount of every operation equals that value. -/
theorem c10_max_tokens_default_positive (i : Option Int) (mval : Int)
    (h : parseMaxTokensField i = some mval) :
    0 < mval
    ∧ (i = none → mval = 16000)
    ∧ (∀ n, i = some n → mval = n)
    ∧ (parseMaxTokensField i).getD 0 = mval
    ∧ (∀ fb : Int, (parseMaxTokensField i).getD fb = mval)
    ∧ (∀ (model : String) (messages : List ChatMessage),
         findClauseAmount (chatAuthorizeClauses model messages mval)
           (model ++ ":output-token") = mval)
    ∧ (∀ model query : String,
         findClauseAmount (askAuthorizeClauses model query mval)
           (model ++ ":output-token") = mval)
    ∧ (∀ (messages : List ChatMessage) (effort : Option String),
         findClauseAmount (deepResearchAuthorizeClauses messages mval effort)
           ("sonar-deep-research" ++ ":output-token") = mval) := by
  have hio : (":input-token" : String) ≠ ":output-token" := by decide
  have hpos : 0 < mval ∧ (i = none → mval = 16000) ∧ (∀ n, i = some n → mval = n) := by
    cases i with
    | none =>
      have h2 : (some 16000 : Option Int) = some mval := h
      have : mval = 16000 := (Option.some_injective _ h2).symm
      refine ⟨by omega, fun _ => this, ?_⟩
      intro n hn
      exact absurd hn (by simp)
    | some n =>
      have h2 : (if 0 < n then some n else (none : Option Int)) = some mval := h
      by_cases hn : 0 < n
      · rw [if_pos hn] at h2
        have he : n = mval := Option.some_injective _ h2
        refine ⟨he ▸ hn, by simp, ?_⟩
        intro n' hn'
        cases hn'
        exact he.symm
      · rw [if_neg hn] at h2
        exact absurd h2 (by simp)
  refine ⟨hpos.1, hpos.2.1, hpos.2.2, by rw [h]; rfl, fun fb => by rw [h]; rfl, ?_, ?_, ?_⟩
  · intro model messages
    unfold chatAuthorizeClauses
    rw [findClauseAmount_cons_ne (strAppendNeRight model hio),
        findClauseAmount_cons_self rfl]
  · intro model query
    unfold askAuthorizeClauses
    rw [findClauseAmount_cons_ne (strAppendNeRight model hio),
        findClauseAmount_cons_self rfl]
  · intro messages effort
    simp only [deepResearchAuthorizeClauses]
    rw [findClauseAmount_cons_ne (strAppendNeRight "sonar-deep-research" hio),
        findClauseAmount_cons_self rfl]

/-- C2: the deep-research poll state machine.  CREATED and IN_PROGRESS
make no settle call and report settled=false; FAILED and COMPLETED make
exactly one settle call and report settled=true; in the FAILED case and
the COMPLETED-without-payload case the single settle carries the five
clauses at amount 0 and the returned response is null. -/
theorem c2_poll_state_machine (tid : String) (rec : JobRecord) (job : AsyncJob) :
    ((job.status = .CREATED ∨ job.status = .IN_PROGRESS) →
       (pollExecute tid (some rec) job).2 = []
       ∧ settleCount (pollExecute tid (some rec) job).2 = 0
       ∧ resultSettled (pollExecute tid (some rec) job).1 = some false)
    ∧ ((job.status = .FAILED ∨ job.status = .COMPLETED) →
       settleCount (pollExecute tid (some rec) job).2 = 1
       ∧ resultSettled (pollExecute tid (some rec) job).1 = some true)
    ∧ (job.status = .FAILED →
       pollExecute tid (some rec) job =
         (.ok { status := .FAILED, response := none,
                error_message := job.error_message, settled := true },
          [.settle tid (zeroSettleClauses job.model)]))
    ∧ (job.status = .COMPLETED → job.response = none →
       pollExecute tid (some rec) job =
         (.ok { status := .COMPLETED, response := none,
                error_message := none, settled := true },
          [.settle tid (zeroSettleClauses job.model)]))
    ∧ ((zeroSettleClauses job.model).length = 5
       ∧ ∀ c ∈ zeroSettleClauses job.model, c.amount = 0) := by
  rcases job with ⟨jid, jmodel, jstatus, jem, jresp⟩
  refine ⟨?_, ?_, ?_, ?_, ?_⟩
  · intro hst
    rcases hst with hst | hst <;> cases hst <;>
      simp [pollExecute, settleCount, resultSettled]
  · intro hst
    rcases hst with hst | hst <;> cases hst
    · simp [pollExecute, settleCount, resultSettled]
    · cases jresp <;> simp [pollExecute, settleCount, resultSettled]
  · intro hst
    cases hst
    simp [pollExecute]
  · intro hst hresp
    cases hst
    simp only at hresp
    cases hresp
    simp [pollExecute]
  · exact ⟨rfl, by simp [zeroSettleClauses]⟩

/-- C2 witness: a FAILED job settles once with the five zero clauses and
reports settled=true with a null response. -/
theorem c2_poll_state_machine_witness :
    pollExecute "tx-1" (some c2Rec) c2Job =
      (.ok { status := .FAILED, response := none,
             error_message := some "boom", settled := true },
       [.settle "tx-1" (zeroSettleClauses "sonar-deep-research")]) :=
  (c2_poll_state_machine "tx-1" c2Rec c2Job).2.2.1 rfl

/-- C6: ASK_PERPLEXITY authorizes exactly input-token = ceil(|query| / 4)
and output-token = max_tokens, and on success settles exactly
input-token = min(estimate, prompt_tokens) and output-token =
min(completion_tokens, max_tokens); the query "abcd" estimates to an
input-token clause amount of 1. -/
theorem c6_ask_clause_amounts (model query : String) (max_tokens : Int)
    (tid : String) (r : HttpOutcome) (usage : UsageInfo)
    (hok : httpOk r = true)
    (hdec : validateChatCompletion r.json = true ∨ hasChoicesField r.json = true)
    (husage : jsonUsage r.json = some usage) :
    (askExecute model query max_tokens tid r).2 =
      [.authorize
         [{ clauseId := model ++ ":input-token",
            amount := (((query.length + 3) / 4 : Nat) : Int) },
          { clauseId := model ++ ":output-token", amount := max_tokens }],
       .settle tid
         [{ clauseId := model ++ ":input-token",
            amount := min (((query.length + 3) / 4 : Nat) : Int) usage.prompt_tokens },
          { clauseId := model ++ ":output-token",
            amount := min usage.completion_tokens max_tokens }]]
    ∧ askInputTokens "abcd" = 1
    ∧ findClauseAmount (askAuthorizeClauses "sonar" "abcd" 16000) "sonar:input-token" = 1 := by
  obtain ⟨out, hdecEq, hpay⟩ := decodeChatPayload_ok_payload hdec
  have hcall : callPerplexityResult r = .ok out := by
    simp [callPerplexityResult, hok, hdecEq]
  have husage2 : jsonUsage out.payload = some usage := by rw [hpay]; exact husage
  refine ⟨?_, rfl, by decide⟩
  simp [askExecute, hcall, husage2, askAuthorizeClauses, askSettleClauses, askInputTokens]

/-- C6 witness: a 2xx choices-bearing payload with usage {2, 5, 7} settles
"abcd" at input-token 1 and output-token 5 after authorizing 1 and 16000. -/
theorem c6_ask_clause_amounts_witness :
    (askExecute "sonar" "abcd" 16000 "tx-3" c6Http).2 =
      [.authorize
         [{ clauseId := "sonar:input-token", amount := 1 },
          { clauseId := "sonar:output-token", amount := 16000 }],
       .settle "tx-3"
         [{ clauseId := "sonar:input-token", amount := 1 },
          { clauseId := "sonar:output-token", amount := 5 }]] := by
  have h := (c6_ask_clause_amounts "sonar" "abcd" 16000 "tx-3" c6Http c6Usage
    (by decide) (Or.inr rfl) rfl).1
  exact h.trans (by decide)

/-- C9: when the model string reported by the fetched job differs from
"sonar-deep-research" (the prefix of every stored authorize clause), every
cap lookup defaults to 0, so the input-token, citation-token,
reasoning-token and search-query clauses settle at 0 while output-token
settles at the full completion_tokens — and none of the five settle clause
ids (in particular the output one) was ever authorized. -/
theorem c9_model_mismatch_zero_caps (m : String) (messages : List ChatMessage)
    (max_tokens : Int) (effort : Option String) (usage : UsageInfo)
    (hm : m ≠ "sonar-deep-research")
    (hpt : 0 ≤ usage.prompt_tokens)
    (hct : 0 ≤ usage.citation_tokens.getD 0)
    (hrt : 0 ≤ usage.reasoning_tokens.getD 0)
    (hq : 0 ≤ usage.num_search_queries.getD 0) :
    pollCompletedSettleClauses m (deepResearchAuthorizeClauses messages max_tokens effort) usage =
      [{ clauseId := m ++ ":input-token", amount := 0 },
       { clauseId := m ++ ":output-token", amount := usage.completion_tokens },
       { clauseId := m ++ ":citation-token", amount := 0 },
       { clauseId := m ++ ":reasoning-token", amount := 0 },
       { clauseId := m ++ ":search-query", amount := 0 }]
    ∧ ∀ c ∈ deepResearchAuthorizeClauses messages max_tokens effort,
        c.clauseId ≠ m ++ ":output-token" := by
  have hmr : ∀ s : String, "sonar-deep-research" ++ s ≠ m ++ s :=
    fun s he => hm (strAppendRightCancel s he).symm
  have hx : ∀ x y : String, ¬ y.data <:+ ("sonar-deep-research" ++ x).data →
      ("sonar-deep-research" ++ x : String) ≠ m ++ y :=
    fun x y hsfx => Ne.symm (strNeOfNotSuffix hsfx)
  have hin : findClauseAmount (deepResearchAuthorizeClauses messages max_tokens effort)
      (m ++ ":input-token") = 0 := by
    simp only [deepResearchAuthorizeClauses]
    rw [findClauseAmount_cons_ne (hmr ":input-token"),
        findClauseAmount_cons_ne (hx ":output-token" ":input-token" (by decide)),
        findClauseAmount_cons_ne (hx ":citation-token" ":input-token" (by decide)),
        findClauseAmount_cons_ne (hx ":reasoning-token" ":input-token" (by decide)),
        findClauseAmount_cons_ne (hx ":search-query" ":input-token" (by decide)),
        findClauseAmount_nil]
  have hcit : findClauseAmount (deepResearchAuthorizeClauses messages max_tokens effort)
      (m ++ ":citation-token") = 0 := by
    simp only [deepResearchAuthorizeClauses]
    rw [findClauseAmount_cons_ne (hx ":input-token" ":citation-token" (by decide)),
        findClauseAmount_cons_ne (hx ":output-token" ":citation-token" (by decide)),
        findClauseAmount_cons_ne (hmr ":citation-token"),
        findClauseAmount_cons_ne (hx ":reasoning-token" ":citation-token" (by decide)),
        findClauseAmount_cons_ne (hx ":search-query" ":citation-token" (by decide)),
        findClauseAmount_nil]
  have hrsn : findClauseAmount (deepResearchAuthorizeClauses messages max_tokens effort)
      (m ++ ":reasoning-token") = 0 := by
    simp only [deepResearchAuthorizeClauses]
    rw [findClauseAmount_cons_ne (hx ":input-token" ":reasoning-token" (by decide)),
        findClauseAmount_cons_ne (hx ":output-token" ":reasoning-token" (by decide)),
        findClauseAmount_cons_ne (hx ":citation-token" ":reasoning-token" (by decide)),
        findClauseAmount_cons_ne (hmr ":reasoning-token"),
        findClauseAmount_cons_ne (hx ":search-query" ":reasoning-token" (by decide)),
        findClauseAmount_nil]
  have hsq : findClauseAmount (deepResearchAuthorizeClauses messages max_tokens effort)
      (m ++ ":search-query") = 0 := by
    simp only [deepResearchAuthorizeClauses]
    rw [findClauseAmount_cons_ne (hx ":input-token" ":search-query" (by decide)),
        findClauseAmount_cons_ne (hx ":output-token" ":search-query" (by decide)),
        findClauseAmount_cons_ne (hx ":citation-token" ":search-query" (by decide)),
        findClauseAmount_cons_ne (hx ":reasoning-token" ":search-query" (by decide)),
        findClauseAmount_cons_ne (hmr ":search-query"),
        findClauseAmount_nil]
  constructor
  · simp only [pollCompletedSettleClauses]
    rw [hin, hcit, hrsn, hsq, min_eq_left hpt, min_self,
        min_eq_right hct, min_eq_right hrt, min_eq_right hq]
  · intro c hc
    simp only [deepResearchAuthorizeClauses, List.mem_cons, List.not_mem_nil,
      or_false] at hc
    rcases hc with hc | hc | hc | hc | hc <;> subst hc
    · exact hx ":input-token" ":output-token" (by decide)
    · exact fun he => hm (strAppendRightCancel _ he).symm
    · exact hx ":citation-token" ":output-token" (by decide)
    · exact hx ":reasoning-token" ":output-token" (by decide)
    · exact hx ":search-query" ":output-token" (by decide)

/-- C9 witness: polling with upstream model "sonar-pro" against a stored
"sonar-deep-research" authorization settles 0 everywhere except the full
completion_tokens on the never-authorized sonar-pro output clause. -/
theorem c9_model_mismatch_zero_caps_witness :
    pollCompletedSettleClauses "sonar-pro" (deepResearchAuthorizeClauses [] 5 none) c9Usage =
      [{ clauseId := "sonar-pro:input-token", amount := 0 },
       { clauseId := "sonar-pro:output-token", amount := 7 },
       { clauseId := "sonar-pro:citation-token", amount := 0 },
       { clauseId := "sonar-pro:reasoning-token", amount := 0 },
       { clauseId := "sonar-pro:search-query", amount := 0 }] := by
  have h := (c9_model_mismatch_zero_caps "sonar-pro" [] 5 none c9Usage
    (by decide) (by decide) (by decide) (by decide) (by decide)).1
  exact h.trans (by decide)

/-- C1: the core settle-within-authorization invariant fails in the code:
for a COMPLETED deep-research poll the output-token settle amount is
min(completion_tokens, completion_tokens) — the actual value, not capped
by the stored authorization — so with 10 output tokens authorized and 20
reported the code settles 20 under the same clause id (every other clause
is capped by the stored amount; ASK and CHAT settle with min against
their own authorization). -/
theorem c1_poll_output_settle_exceeds_authorization :
    findClauseAmount c1Auth "sonar-deep-research:output-token" = 10
    ∧ findClauseAmount c1Settle "sonar-deep-research:output-token" = 20
    ∧ ¬ settleWithinAuthorized c1Auth c1Settle
    ∧ (pollExecute "tx-0" (some { authorizeClauses := c1Auth, asyncRespId := "job-0" })
         { id := "job-0", model := "sonar-deep-research", status := .COMPLETED,
           error_message := none, response := some { usage := c1Usage } }).2 =
       [.settle "tx-0" c1Settle] := by
  refine ⟨by decide, by decide, ?_, rfl⟩
  unfold settleWithinAuthorized
  decide

/-- C10 witness: the absent input validates to the default 16000 and the
chat authorize output clause carries exactly that amount. -/
theorem c10_max_tokens_default_positive_witness :
    findClauseAmount (chatAuthorizeClauses "sonar" [] 16000) ("sonar" ++ ":output-token") = 16000 :=
  (c10_max_tokens_default_positive none 16000 rfl).2.2.2.2.2.1 "sonar" []

end Perplexity
